import Mathlib

/-!
# RabbitMQ source adapter: shallow embedding and checked properties

Embedding of `pkg/adapter/adapter.go` (package `rabbitmq`).  Go strings are
Lean strings, Go `int` is `Int`, a Go `(value, error)` pair that the code only
reads through `err != nil` is an `Except`, and interface values that may be
`nil` are `Option`s.  Logging and the calls on the broker are recorded as a
trace of `Event`s.
-/

namespace Rabbitmq

/-- Go `error` values, identified by their message. -/
abbrev GoError := String

/-- Go `strings.HasSuffix(s, suffix)`. -/
def hasSuffix (s suffix : String) : Bool :=
  suffix.data.isSuffixOf s.data

/-- Go `strings.HasPrefix(s, prefix)`. -/
def hasPrefix (s pre : String) : Bool :=
  pre.data.isPrefixOf s.data

/-- Go `vhostHandler`: `fmt.Sprintf("%s/%s", ..)` when both parts are non-empty,
the broker has no trailing slash and the vhost no leading slash; otherwise
`fmt.Sprintf("%s%s", ..)`. -/
def vhostHandler (broker vhost : String) : String :=
  if vhost.length > 0 ∧ broker.length > 0 ∧ hasSuffix broker "/" = false ∧
      hasPrefix vhost "/" = false then
    broker ++ "/" ++ vhost
  else
    broker ++ vhost

/-- Endpoint composition rule as the specification words it (section 4.1):
empty vhost gives the base; a base without trailing slash and a vhost without
leading slash are joined by a slash; anything else is concatenated. -/
def composeEndpoint (B V : String) : String :=
  if V = "" then B
  else if hasSuffix B "/" = false ∧ hasPrefix V "/" = false then B ++ "/" ++ V
  else B ++ V

/-! ## Configuration, collaborators and the trace -/

/-- Constant `resourceGroup`. -/
def resourceGroup : String := "rabbitmqsources.sources.knative.dev"

/-- Fields of `adapterConfig` (with `Name`, `Namespace` and `Sink` of the
embedded `adapter.EnvConfig`) that the adapter reads. -/
structure AdapterConfig where
  Name : String
  Namespace : String
  Sink : String
  RabbitURL : String
  Vhost : String
  Retry : Int
  BackoffPolicy : String
  BackoffDelay : String
  Parallelism : Int
  QueueName : String
deriving DecidableEq, Repr

/-- What the program does to the outside world, in program order. -/
inductive Event where
  | logInfo (msg : String)
  | logError (msg : String)
  | logFatal (msg : String)
  | ack (tag : Nat) (multiple : Bool)
  | nack (tag : Nat) (multiple requeue : Bool)
  | reportEventCount (ns name rg : String) (status : Int)
  | qos (prefetchCount : Int) (prefetchSize : Int) (global : Bool)
  | queueInspect (name : String)
  | consume (queue consumerTag : String) (autoAck exclusive noLocal noWait : Bool)
  | spawnWorker (index : Nat)
  | closeQueue
  | closeChannel
  | closeConn
deriving DecidableEq, Repr

/-- A `wabbit.Delivery` as the worker uses it: its identity and what its `Ack`
and `Nack` methods answer. -/
structure Delivery where
  messageId : String
  deliveryTag : Nat
  ackErr : Option GoError
  nackErr : Option GoError
deriving DecidableEq, Repr

/-- Result of `SendWithRetries`: a transport error, or a response, of which the
code reads the `StatusCode` only. -/
inductive SendResult where
  | failed (err : GoError)
  | response (statusCode : Int)
deriving DecidableEq, Repr

/-- Answers of the collaborators while one delivery is posted:
`NewCloudEventRequest`, `rabbit.ConvertMessageToHTTPRequest`,
`SendWithRetries` and
`ReportEventCount`. -/
structure Exchange where
  newRequest : Option GoError
  convert : Option GoError
  send : SendResult
  report : Option GoError
deriving DecidableEq, Repr

/-- A delivery together with the collaborators' answers for it. -/
structure Job where
  msg : Delivery
  io : Exchange
deriving DecidableEq, Repr

/-- The `Adapter` value: its configuration, the sender's `Target`, and the
`net/http` status-text table used to word the status error. -/
structure Adapter where
  config : AdapterConfig
  target : String
  statusText : Int → String

/-! ## The forwarding worker -/

/-- Go `postMessage`: the returned error (`none` is `nil`) and the trace. -/
def postMessage (a : Adapter) (j : Job) : Option GoError × List Event :=
  let t0 := [Event.logInfo ("target: " ++ a.target)]
  match j.io.newRequest with
  | some err => (some err, t0)
  | none =>
    match j.io.convert with
    | some err => (some err, t0 ++ [Event.logError "error writing event to http"])
    | none =>
      match j.io.send with
      | .failed err => (some err, t0 ++ [Event.logError "error while sending the message"])
      | .response status =>
        if Int.tdiv status 100 ≠ 2 then
          (some (toString status ++ " " ++ a.statusText status),
            t0 ++ [Event.logError "unexpected status code"])
        else
          (none, t0 ++ [Event.reportEventCount a.config.Namespace a.config.Name
            resourceGroup status])

/-- The two branches of the worker after `postMessage` returned `err`:
acknowledge on nil, reject without requeue otherwise; an error of `Ack` or
`Nack` is logged. -/
def dispose (msg : Delivery) (err : Option GoError) : List Event :=
  match err with
  | none =>
    [Event.logInfo "Successfully sent event to sink", Event.ack msg.deliveryTag false] ++
      (match msg.ackErr with
       | some _ => [Event.logError "sending Ack failed with Delivery Tag"]
       | none => [])
  | some _ =>
    [Event.logError "sending event to sink failed: ", Event.nack msg.deliveryTag false false] ++
      (match msg.nackErr with
       | some _ => [Event.logError "sending Nack failed with Delivery Tag"]
       | none => [])

/-- One iteration of the `for msg := range queue` loop of `processMessages`. -/
def processOne (a : Adapter) (j : Job) : List Event :=
  let r := postMessage a j
  [Event.logInfo "Received: "] ++ r.2 ++ dispose j.msg r.1

/-- Go `processMessages` run on the deliveries the worker reads from the relay
queue until the queue is closed and drained. -/
def processMessages (a : Adapter) : List Job → List Event
  | [] => []
  | j :: rest => processOne a j ++ processMessages a rest

/-- Is the event a disposition (`Ack` or `Nack`)? -/
def Event.isDisposition : Event → Bool
  | .ack _ _ => true
  | .nack _ _ _ => true
  | _ => false

/-- Is the event an event-count report? -/
def Event.isReport : Event → Bool
  | .reportEventCount _ _ _ _ => true
  | _ => false

/-- Dispositions of a trace, in order. -/
def dispositions (t : List Event) : List Event := t.filter Event.isDisposition

/-- Reports of a trace, in order. -/
def reports (t : List Event) : List Event := t.filter Event.isReport

/-- The disposition the claim prescribes for a delivery: `Ack(false)` when
`postMessage` returned `nil`, `Nack(false, false)` otherwise. -/
def expectedDisposition (a : Adapter) (j : Job) : Event :=
  match (postMessage a j).1 with
  | none => Event.ack j.msg.deliveryTag false
  | some _ => Event.nack j.msg.deliveryTag false false

/-! ## Broker connection, start-up and the dispatch loop -/

/-- How a call ends. -/
inductive Outcome (α : Type) where
  /-- the call returned this value -/
  | returned (value : α)
  /-- a run-time panic (nil dereference, negative counter) -/
  | panicked
  /-- the logger's `Fatalf`: the process exits -/
  | fatal
  /-- the call has not returned within the schedule given -/
  | running
deriving DecidableEq, Repr

/-- A `wabbit.Queue`; only `Name()` is read. -/
structure Queue where
  name : String
deriving DecidableEq, Repr

/-- The delivery stream handed out by `Consume`: the deliveries still to come
and whether the broker closes the stream after them. -/
structure Stream where
  deliveries : List Job
  closes : Bool
deriving DecidableEq, Repr

/-- A `wabbit.Channel`, given by what its methods answer: `Qos`,
`QueueInspect` (queue and error, either of which may be nil) and `Consume`
(delivery stream, `none` for a nil Go channel, and error). -/
structure Channel where
  qosErr : Option GoError
  inspectQueue : Option Queue
  inspectErr : Option GoError
  consumeMsgs : Option Stream
  consumeErr : Option GoError
deriving DecidableEq, Repr

/-- A non-nil `wabbit.Conn` interface value, given by what `Channel()` answers:
a channel and an error, either of which may be nil, or `none` when the call
panics (as it may through a nil `*amqp.Conn` wrapped in the interface). -/
structure Conn where
  channel : Option (Option Channel × Option GoError)
deriving DecidableEq, Repr

/-- The libraries the adapter calls at start-up: `amqp.Dial` (connection and
error per URL), `Channel()` called through the nil `*amqptest.Conn` that `start`
passes (`none`: it panics), `utils.SetBackoffPolicy` and the error of
`kncloudevents.RetryConfigFromDeliverySpec` per (policy, delay, retry). -/
structure World where
  dial : String → Option Conn × Option GoError
  nilTestConnChannel : Option (Option Channel × Option GoError)
  setBackoffPolicy : String → String
  retryConfigErr : String → String → Int → Option GoError

/-- Go conversion `int32(n)` of an `int`. -/
def toInt32 (n : Int) : Int := (n + 2 ^ 31) % 2 ^ 32 - 2 ^ 31

/-- Go `CreateConn`. -/
def CreateConn (a : Adapter) (w : World) : (Option Conn × Option GoError) × List Event :=
  let r := w.dial (vhostHandler a.config.RabbitURL a.config.Vhost)
  (r, match r.2 with
      | some err => [Event.logError err]
      | none => [])

/-- Go `CreateChannel` with `connTest = nil`, as `start` calls it. -/
def CreateChannel (a : Adapter) (w : World) (conn : Option Conn) :
    Outcome (Option Channel × Option GoError) × List Event :=
  let opened : Option (Option Channel × Option GoError) :=
    match conn with
    | some c => c.channel
    | none => w.nilTestConnChannel
  match opened with
  | none => (Outcome.panicked, [])
  | some (_, some err) => (Outcome.returned (none, some err), [Event.logError err])
  | some (none, none) =>
    (Outcome.panicked, [Event.logInfo "Initializing Channel with Config: "])
  | some (some ch, none) =>
    (Outcome.returned (some ch, ch.qosErr),
      [Event.logInfo "Initializing Channel with Config: ",
       Event.qos a.config.Parallelism 0 false])

/-- Go `StartAmqpClient`: `QueueInspect` through the channel; a nil channel
panics.  The returned `*wabbit.Queue` points at the interface value, which is
`none` when `QueueInspect` answered a nil queue. -/
def StartAmqpClient (a : Adapter) (ch : Option Channel) :
    Outcome (Option Queue × Option GoError) × List Event :=
  match ch with
  | none => (Outcome.panicked, [])
  | some c =>
    (Outcome.returned (c.inspectQueue, c.inspectErr), [Event.queueInspect a.config.QueueName])

/-- Go `ConsumeMessages`: `(*queue).Name()` and `(*channel).Consume` panic on a
nil interface value. -/
def ConsumeMessages (channel : Option Channel) (queue : Option Queue) :
    Outcome (Option Stream × Option GoError) × List Event :=
  match channel, queue with
  | some c, some q =>
    (Outcome.returned (c.consumeMsgs, c.consumeErr),
      [Event.consume q.name "" false false false false] ++
        (match c.consumeErr with
         | some err => [Event.logError err]
         | none => []))
  | _, _ => (Outcome.panicked, [])

/-- Where the dispatch loop of `PollForMessages` stands. -/
inductive MainPc where
  /-- at the `select` -/
  | selecting
  /-- at `workerQueue <- msg` -/
  | sending (j : Job)
  /-- at `wg.Wait()` of the stop case -/
  | waitStop
  /-- at `wg.Wait()` of the closed-stream case -/
  | waitClosed
  /-- returned nil -/
  | done
deriving DecidableEq, Repr

/-- Where a `processMessages` goroutine stands. -/
inductive WorkerPc where
  /-- at `range queue` -/
  | ranging
  /-- holds a delivery, before `postMessage` -/
  | received (j : Job)
  /-- `postMessage` returned `err`, before `Ack` or `Nack` -/
  | posted (j : Job) (err : Option GoError)
  /-- `wg.Done()` ran -/
  | exited
deriving DecidableEq, Repr

/-- The dispatch loop and its workers: the stop signal, the delivery stream,
the relay queue `workerQueue` with its capacity and closed flag, the wait-group
counter, the workers, the trace, and (for the statements) the deliveries that
were placed on the relay queue. -/
structure Pool where
  main : MainPc
  stopped : Bool
  msgs : Option Stream
  queue : List Job
  capacity : Nat
  closed : Bool
  wg : Nat
  workers : List WorkerPc
  trace : List Event
  admitted : List Job
deriving DecidableEq, Repr

/-- One scheduling decision: the stop signal is raised; the `select` takes the
stop case; the `select` takes the stream case; the dispatch loop takes its next
step elsewhere; worker `i` takes its next step.  A decision that is not enabled
leaves the pool unchanged. -/
inductive Tick where
  | stop
  | onStop
  | onMsg
  | main
  | worker (i : Nat)
deriving DecidableEq, Repr

/-- State after `wg.Add(workerCount)`, `make(chan wabbit.Delivery, workerCount)`
and the spawning of `n` workers. -/
def Pool.init (n : Nat) (msgs : Option Stream) : Pool :=
  { main := MainPc.selecting, stopped := false, msgs := msgs, queue := [], capacity := n,
    closed := false, wg := n, workers := List.replicate n WorkerPc.ranging, trace := [],
    admitted := [] }

/-- One step of worker `i`. -/
def Pool.stepWorker (a : Adapter) (p : Pool) (i : Nat) : Pool :=
  match p.workers[i]? with
  | none => p
  | some WorkerPc.ranging =>
    match p.queue with
    | j :: rest =>
      { p with queue := rest, workers := p.workers.set i (WorkerPc.received j),
               trace := p.trace ++ [Event.logInfo "Received: "] }
    | [] =>
      if p.closed then { p with wg := p.wg - 1, workers := p.workers.set i WorkerPc.exited }
      else p
  | some (WorkerPc.received j) =>
    { p with workers := p.workers.set i (WorkerPc.posted j (postMessage a j).1),
             trace := p.trace ++ (postMessage a j).2 }
  | some (WorkerPc.posted j err) =>
    { p with workers := p.workers.set i WorkerPc.ranging,
             trace := p.trace ++ dispose j.msg err }
  | some WorkerPc.exited => p

/-- One step of the dispatch loop of `PollForMessages` and its workers. -/
def Pool.step (a : Adapter) (p : Pool) : Tick → Pool
  | Tick.stop => { p with stopped := true }
  | Tick.onStop =>
    match p.main with
    | MainPc.selecting =>
      if p.stopped then
        { p with closed := true, main := MainPc.waitStop, trace := p.trace ++ [Event.closeQueue] }
      else p
    | _ => p
  | Tick.onMsg =>
    match p.main, p.msgs with
    | MainPc.selecting, some st =>
      match st.deliveries with
      | j :: rest => { p with main := MainPc.sending j, msgs := some { st with deliveries := rest } }
      | [] =>
        if st.closes then
          { p with closed := true, main := MainPc.waitClosed,
                   trace := p.trace ++ [Event.closeQueue] }
        else p
    | _, _ => p
  | Tick.main =>
    match p.main with
    | MainPc.sending j =>
      if p.queue.length < p.capacity then
        { p with queue := p.queue ++ [j], main := MainPc.selecting,
                 admitted := p.admitted ++ [j] }
      else p
    | MainPc.waitStop =>
      if p.wg = 0 then
        { p with main := MainPc.done, trace := p.trace ++ [Event.logInfo "Shutting down..."] }
      else p
    | MainPc.waitClosed => if p.wg = 0 then { p with main := MainPc.done } else p
    | _ => p
  | Tick.worker i => p.stepWorker a i

/-- The pool after a schedule. -/
def Pool.run (a : Adapter) (p : Pool) : List Tick → Pool
  | [] => p
  | t :: rest => Pool.run a (p.step a t) rest

/-- The dispatch loop of `PollForMessages` with its `Parallelism` workers on the
delivery stream `msgs`, after the schedule given. -/
def dispatch (a : Adapter) (msgs : Option Stream) (sched : List Tick) : Pool :=
  Pool.run a (Pool.init a.config.Parallelism.toNat msgs) sched

/-- Has the delivery stream been closed by the broker and seen closed? -/
def Pool.streamEnded (p : Pool) : Bool :=
  match p.msgs with
  | some st => st.deliveries.isEmpty && st.closes
  | none => false

/-- Go `PollForMessages` from `ConsumeMessages` on: the subscription, the
wait group and relay queue, the workers and the dispatch loop, under a schedule
of the loop and the workers. -/
def pollFromConsume (a : Adapter) (channel : Option Channel) (queue : Option Queue)
    (sched : List Tick) : Outcome (Option GoError) × List Event :=
  match ConsumeMessages channel queue with
  | (Outcome.returned (msgs, _), t) =>
    if a.config.Parallelism < 0 then (Outcome.panicked, t)
    else
      let p := dispatch a msgs sched
      (if p.main = MainPc.done then Outcome.returned none else Outcome.running,
        t ++ [Event.logInfo "Starting GoRoutines Workers: "] ++
          (List.range a.config.Parallelism.toNat).map Event.spawnWorker ++ p.trace)
  | (_, t) => (Outcome.panicked, t)

/-- Go `PollForMessages` under a schedule of the dispatch loop and workers. -/
def PollForMessages (a : Adapter) (w : World) (channel : Option Channel)
    (queue : Option Queue) (sched : List Tick) : Outcome (Option GoError) × List Event :=
  if a.config.BackoffDelay ≠ "" then
    let backoffPolicy := w.setBackoffPolicy a.config.BackoffPolicy
    if backoffPolicy = "" then
      (Outcome.fatal, [Event.logFatal "Invalid BACKOFF_POLICY specified"])
    else
      let t : List Event :=
        match w.retryConfigErr backoffPolicy a.config.BackoffDelay (toInt32 a.config.Retry) with
        | some _ => [Event.logError "error retrieving retryConfig from deliverySpec"]
        | none => []
      let r := pollFromConsume a channel queue sched
      (r.1, t ++ r.2)
  else
    pollFromConsume a channel queue sched

/-- The deferred `ch.Close()` and `conn.Close()` of `start`, run when it returns
or panics; the process exit of `Fatalf` skips them. -/
def deferred (closeCh closeConn : Bool) (o : Outcome (Option GoError)) : List Event :=
  match o with
  | Outcome.returned _ | Outcome.panicked =>
    (if closeCh then [Event.closeChannel] else []) ++
      (if closeConn then [Event.closeConn] else [])
  | _ => []

/-- Go `start` under a schedule of the dispatch loop and workers. -/
def start (a : Adapter) (w : World) (sched : List Tick) :
    Outcome (Option GoError) × List Event :=
  let t0 := [Event.logInfo "Starting with config: "]
  let c := CreateConn a w
  let conn := c.1.1
  let closeConn := c.1.2 = none
  if closeConn ∧ conn = none then (Outcome.panicked, t0 ++ c.2)
  else
    match CreateChannel a w conn with
    | (Outcome.returned (ch, err), t2) =>
      let closeCh := err = none
      if closeCh ∧ ch = none then
        (Outcome.panicked, t0 ++ c.2 ++ t2 ++ deferred false closeConn Outcome.panicked)
      else
        match StartAmqpClient a ch with
        | (Outcome.returned (queue, err), t3) =>
          let t4 := match err with
            | some e => [Event.logError e]
            | none => []
          let r := PollForMessages a w ch queue sched
          (r.1, t0 ++ c.2 ++ t2 ++ t3 ++ t4 ++ r.2 ++ deferred closeCh closeConn r.1)
        | (_, t3) =>
          (Outcome.panicked, t0 ++ c.2 ++ t2 ++ t3 ++ deferred closeCh closeConn Outcome.panicked)
    | (_, t2) => (Outcome.panicked, t0 ++ c.2 ++ t2 ++ deferred false closeConn Outcome.panicked)

/-- The four ways a delivery fails to be forwarded. -/
def Job.fails (j : Job) : Prop :=
  j.io.newRequest ≠ none ∨ j.io.convert ≠ none ∨ (∃ e, j.io.send = SendResult.failed e) ∨
    (∃ s : Int, j.io.send = SendResult.response s ∧ ¬ (200 ≤ s ∧ s < 300))

/-- The sink of the witnesses: namespace `ns`, name `src`. -/
def demoAdapter : Adapter :=
  { config := { Name := "src", Namespace := "ns", Sink := "http://sink", RabbitURL := "host",
                Vhost := "v", Retry := 0, BackoffPolicy := "linear", BackoffDelay := "50ms",
                Parallelism := 2, QueueName := "q" },
    target := "http://sink",
    statusText := fun _ => "" }

/-- A delivery with tag `tag` whose send is answered with `status`; reporting,
acknowledging and rejecting all answer an error. -/
def demoJob (tag : Nat) (status : Int) : Job :=
  { msg := { messageId := "m", deliveryTag := tag, ackErr := some "ack", nackErr := some "nack" },
    io := { newRequest := none, convert := none, send := SendResult.response status,
            report := some "report" } }

/-- Did the call return a non-nil error? -/
def returnsError : Outcome (Option GoError) → Bool
  | Outcome.returned (some _) => true
  | _ => false

/-- Does the trace subscribe to a queue or start a worker? -/
def consumesOrSpawns (t : List Event) : Bool :=
  t.any fun e =>
    match e with
    | Event.consume _ _ _ _ _ _ => true
    | Event.spawnWorker _ => true
    | _ => false

/-- A backoff-policy reader for the witnesses: `linear` and `exponential` are
kept, anything else is invalid. -/
def demoSetBackoffPolicy (policy : String) : String :=
  if policy = "linear" ∨ policy = "exponential" then policy else ""

/-- The answer of `RetryConfigFromDeliverySpec` in the witnesses: the delay
`50ms`, the default of `BackoffDelay`, is not an ISO-8601 duration and is
refused. -/
def demoRetryConfigErr (_policy delay : String) (_retry : Int) : Option GoError :=
  if delay = "50ms" then some "failed to parse Spec.BackoffDelay" else none

/-- A channel whose queue exists and whose stream carries `deliveries`. -/
def demoChannel (deliveries : List Job) : Channel :=
  { qosErr := none, inspectQueue := some { name := "q" }, inspectErr := none,
    consumeMsgs := some { deliveries := deliveries, closes := false }, consumeErr := none }

/-- A broker that is up, with the channel given. -/
def demoWorld (ch : Channel) : World :=
  { dial := fun _ => (some { channel := some (some ch, none) }, none),
    nilTestConnChannel := none,
    setBackoffPolicy := demoSetBackoffPolicy,
    retryConfigErr := demoRetryConfigErr }

/-- A broker that cannot be reached: `amqp.Dial` answers its nil `*amqp.Conn`
with the error, and `Channel()` through that nil pointer panics. -/
def downWorld : World :=
  { dial := fun _ => (some { channel := none }, some "dial tcp: connection refused"),
    nilTestConnChannel := none,
    setBackoffPolicy := demoSetBackoffPolicy,
    retryConfigErr := demoRetryConfigErr }

/-- The channel of a broker on which queue `q` does not exist, as the
`wabbit/amqp` client that `start` dials presents it: `QueueInspect` answers the
error together with a non-nil queue value carrying the name asked for, and the
broker has closed the channel, so `Consume` answers an error and a nil stream. -/
def missingQueueChannel : Channel :=
  { qosErr := none, inspectQueue := some { name := "q" },
    inspectErr := some "Exception (404) Reason: NOT_FOUND - no queue q in vhost /",
    consumeMsgs := none,
    consumeErr := some "Exception (504) Reason: channel/connection is not open" }

/-- A schedule on which the stop signal is raised at once: the dispatch loop
closes the relay queue, the two workers exit, and the loop returns. -/
def stopSchedule : List Tick :=
  [Tick.stop, Tick.onStop, Tick.worker 0, Tick.worker 1, Tick.main]

/-- The adapter of the witnesses with the backoff settings given. -/
def demoAdapterWith (policy delay : String) : Adapter :=
  { demoAdapter with
    config := { demoAdapter.config with BackoffPolicy := policy, BackoffDelay := delay } }

/-- The disposition a worker still owes for the delivery it holds. -/
def WorkerPc.owed (a : Adapter) : WorkerPc → List Event
  | WorkerPc.received j => [expectedDisposition a j]
  | WorkerPc.posted j err => dispositions (dispose j.msg err)
  | _ => []

/-- `1` for a worker that has not called `wg.Done()`, `0` for one that has. -/
def WorkerPc.live : WorkerPc → Nat
  | WorkerPc.exited => 0
  | _ => 1

/-- The dispositions still owed in a pool: one for each delivery on the relay
queue and one for each delivery held by a worker. -/
def Pool.owed (a : Adapter) (p : Pool) : Multiset Event :=
  ↑(p.queue.map (expectedDisposition a)) +
    (p.workers.map fun w => (↑(w.owed a) : Multiset Event)).sum

/-- Invariant of the dispatch loop with `n` workers. -/
structure Pool.Inv (a : Adapter) (n : Nat) (p : Pool) : Prop where
  workers_length : p.workers.length = n
  wg_eq : p.wg = (p.workers.map WorkerPc.live).sum
  closed_iff : p.closed = true ↔
    (p.main = MainPc.waitStop ∨ p.main = MainPc.waitClosed ∨ p.main = MainPc.done)
  done_wg : p.main = MainPc.done → p.wg = 0
  exited_drained : WorkerPc.exited ∈ p.workers → p.closed = true ∧ p.queue = []
  closed_cause : p.closed = true →
    p.stopped = true ∨ ∃ st, p.msgs = some st ∧ st.deliveries = [] ∧ st.closes = true
  balance : (↑(dispositions p.trace) : Multiset Event) + p.owed a =
    ↑(p.admitted.map (expectedDisposition a))

/-- Three deliveries for the shutdown witness: the sink answers 200, 500 and
204. -/
def demoJobs : List Job := [demoJob 1 200, demoJob 2 500, demoJob 3 204]

/-- A schedule of the shutdown witness: the dispatch loop places two deliveries
on the relay queue, worker 0 takes the first, the loop places the third, and the
stop signal is raised with the three deliveries in the pool; the loop closes the
relay queue and waits, the two workers drain it and exit, and the loop returns. -/
def demoSchedule : List Tick :=
  [Tick.onMsg, Tick.main, Tick.onMsg, Tick.main, Tick.worker 0, Tick.onMsg, Tick.main,
   Tick.stop, Tick.onStop, Tick.main,
   Tick.worker 0, Tick.worker 0, Tick.worker 1, Tick.worker 0, Tick.main,
   Tick.worker 1, Tick.worker 1, Tick.worker 0, Tick.worker 0,
   Tick.worker 0, Tick.main, Tick.worker 1, Tick.main]

end Rabbitmq

/-! ## The connection helper of package `rabbit`

Only the test `Test_SetupRabbitMQReconnections` of this package is among the
sources; the helper it exercises is described in section 4.1 of the
specification. -/

namespace Rabbit

open Rabbitmq (GoError)

/-- Modelled from the spec: the `RabbitMQHelper` of `pkg/rabbit`, whose source
is missing; it carries the cycle duration and the retry channel given to
`NewRabbitMQHelper` and the retry-attempt counter (section 3, `RetryAttempt`).
The channel is given by the signals sent on it and not yet received. -/
structure RabbitMQHelper where
  cycleDuration : Nat
  retryCounter : Nat
  retryChannel : List Bool
deriving DecidableEq, Repr

/-- Modelled from the spec: `NewRabbitMQHelper`, missing from the sources; the
counter of a new helper is 0, as the test's `retryCounter == 0` check assumes. -/
def NewRabbitMQHelper (cycleDuration : Nat) (retryChannel : List Bool) : RabbitMQHelper :=
  { cycleDuration := cycleDuration, retryCounter := 0, retryChannel := retryChannel }

/-- Modelled from the spec: `SignalRetry`, missing from the sources, the "emit
retry notification" operation of section 4.1: `true` asks for another attempt,
`false` says "stop retrying". -/
def SignalRetry (h : RabbitMQHelper) (retry : Bool) : RabbitMQHelper :=
  { h with retryChannel := h.retryChannel ++ [retry] }

/-- Modelled from the spec: `WaitForRetrySignal`, missing from the sources, the
"await/decide continue" operation of section 4.1: the oldest signal not yet
received and the helper without it; `none` while there is no signal and the
call blocks. -/
def WaitForRetrySignal (h : RabbitMQHelper) : Option (Bool × RabbitMQHelper) :=
  match h.retryChannel with
  | [] => none
  | retry :: rest => some (retry, { h with retryChannel := rest })

/-- A connection with its channel, by whether each is already closed. -/
structure Connection where
  channelClosed : Bool
  connClosed : Bool
deriving DecidableEq, Repr

/-- What `SetupRabbitMQ` does, in order. -/
inductive SetupStep where
  | dial (url : String)
  | logError (err : GoError)
  | wait (seconds : Nat)
  | signalRetry (retry : Bool)
deriving DecidableEq, Repr

/-- What a call of `SetupRabbitMQ` leaves: the helper, the connection and error
it returns, and what it did. -/
structure SetupResult where
  helper : RabbitMQHelper
  conn : Option Connection
  err : Option GoError
  steps : List SetupStep
deriving DecidableEq, Repr

/-- Modelled from the spec: `SetupRabbitMQ`, missing from the sources
(section 4.1): attempt the dial; on failure increment the counter, log the
error, wait the cycle duration and emit the retry notification.  As the test
`Test_SetupRabbitMQReconnections` requires of its single call, which no
`SignalRetry(false)` ever answers, the call then returns the error with a nil
connection; the re-attempt is the next call, made by whoever awaits the retry
signal.  `dial url` is the error of the dial, `none` when it succeeds. -/
def SetupRabbitMQ (dial : String → Option GoError) (h : RabbitMQHelper) (url : String) :
    SetupResult :=
  match dial url with
  | some err =>
    { helper := SignalRetry { h with retryCounter := h.retryCounter + 1 } true,
      conn := none, err := some err,
      steps := [SetupStep.dial url, SetupStep.logError err, SetupStep.wait h.cycleDuration,
                SetupStep.signalRetry true] }
  | none =>
    { helper := h, conn := some { channelClosed := false, connClosed := false }, err := none,
      steps := [SetupStep.dial url] }

/-- The two checks `Test_SetupRabbitMQReconnections` makes after its call of
`SetupRabbitMQ`: the messages of those that fail. -/
def testFailures (r : SetupResult) : List String :=
  (if r.err = none then
      ["SetupRabbitMQ should fail with the default DialFunc in testing environments"]
    else []) ++
    (if r.helper.retryCounter = 0 then ["no retries have been attempted want: > 0"] else [])

/-- What `CleanupRabbitMQ` does. -/
inductive CleanupStep where
  | closeChannel
  | closeConnection
deriving DecidableEq, Repr

/-- Modelled from the spec: `CleanupRabbitMQ`, missing from the sources
(section 4.1, "closes channel then connection, tolerating either being already
closed"); the test hands it the nil connection of the failed set-up, for which
there is nothing to close.  `none` would be a panic. -/
def CleanupRabbitMQ (conn : Option Connection) : Option (List CleanupStep) :=
  match conn with
  | none => some []
  | some c =>
    some ((if c.channelClosed then [] else [CleanupStep.closeChannel]) ++
      (if c.connClosed then [] else [CleanupStep.closeConnection]))

/-- The dial of the test environment: no broker listens, every attempt fails. -/
def refusedDial (_url : String) : Option GoError :=
  some "dial tcp 127.0.0.1:5672: connect: connection refused"

end Rabbit

namespace Rabbitmq

/-! # Theorems -/

/-! ## Endpoint composition -/

theorem length_pos_iff (s : String) : s.length > 0 ↔ s ≠ "" := by
  rw [gt_iff_lt, String.length, List.length_pos]
  constructor
  · intro h e
    exact h (by rw [e])
  · intro h e
    exact h (String.ext e)

theorem hasSuffix_append_slash (h : String) : hasSuffix (h ++ "/") "/" = true := by
  simp [hasSuffix, List.isSuffixOf_iff_suffix]

theorem hasPrefix_slash_append (v : String) : hasPrefix ("/" ++ v) "/" = true := by
  simp [hasPrefix]

/-- The three cases of `vhostHandler`, with the length tests read as
non-emptiness. -/
theorem vhostHandler_cases (B V : String) :
    vhostHandler B V =
      if V = "" then B
      else if B ≠ "" ∧ hasSuffix B "/" = false ∧ hasPrefix V "/" = false then B ++ "/" ++ V
      else B ++ V := by
  unfold vhostHandler
  by_cases hV : V = ""
  · subst hV
    simp
  · by_cases hB : B = ""
    · subst hB; simp [hV]
    · have h1 := (length_pos_iff V).2 hV
      have h2 := (length_pos_iff B).2 hB
      simp [hV, hB, h1, h2]

/-- C2 (as stated, refuted): with the empty base and vhost `v` the base does
not end with a slash and the vhost does not start with one, yet `vhostHandler`
returns `v`, not `/v` as the composition rule of the specification prescribes. -/
theorem vhostHandler_empty_base_counterexample :
    ("v" : String) ≠ "" ∧ hasSuffix "" "/" = false ∧ hasPrefix "v" "/" = false ∧
      vhostHandler "" "v" = "v" ∧ composeEndpoint "" "v" = "/v" ∧
      vhostHandler "" "v" ≠ composeEndpoint "" "v" := by
  decide

/-- C2 (amended): `vhostHandler B V` is `B` when `V` is empty; `B + "/" + V`
when `V` and `B` are both non-empty, `B` does not end with a slash and `V` does
not start with one; and the concatenation `B + V` otherwise. -/
theorem vhostHandler_composition_rule (B V : String) :
    vhostHandler B V =
      if V = "" then B
      else if B ≠ "" ∧ hasSuffix B "/" = false ∧ hasPrefix V "/" = false then B ++ "/" ++ V
      else B ++ V :=
  vhostHandler_cases B V

/-- C3: for a non-empty host without trailing slash and a non-empty vhost
without leading slash, `vhostHandler h "" = h`, and `vhostHandler` gives
`h + "/" + v` on `(h, v)`, on `(h + "/", v)` and on `(h, "/" + v)`. -/
theorem vhostHandler_normalises_slash (h v : String) (hh : h ≠ "")
    (hs : hasSuffix h "/" = false) (hv : v ≠ "") (hp : hasPrefix v "/" = false) :
    vhostHandler h "" = h ∧ vhostHandler h v = h ++ "/" ++ v ∧
      vhostHandler (h ++ "/") v = h ++ "/" ++ v ∧
      vhostHandler h ("/" ++ v) = h ++ "/" ++ v := by
  refine ⟨?_, ?_, ?_, ?_⟩
  · simp [vhostHandler_cases]
  · simp [vhostHandler_cases, hh, hs, hv, hp]
  · simp [vhostHandler_cases, hv, hasSuffix_append_slash]
  · have hne : "/" ++ v ≠ "" := by
      intro e
      have := congrArg String.length e
      simp at this
      exact absurd this.1 (by decide)
    rw [vhostHandler_cases]
    simp [hasPrefix_slash_append, String.append_assoc, hne]

/-- C3 at `h = "host"`, `v = "v"`: all three spellings give `"host/v"`. -/
theorem vhostHandler_normalises_slash_witness :
    vhostHandler "host" "" = "host" ∧ vhostHandler "host" "v" = "host/v" ∧
      vhostHandler "host/" "v" = "host/v" ∧ vhostHandler "host" "/v" = "host/v" :=
  vhostHandler_normalises_slash "host" "v" (by decide) (by decide) (by decide) (by decide)

/-! ## The forwarding worker -/

/-- Go's truncating `s / 100` is `2` exactly for `s` in `[200, 300)`. -/
theorem tdiv_hundred_eq_two (s : Int) : Int.tdiv s 100 = 2 ↔ 200 ≤ s ∧ s < 300 := by
  rcases le_or_lt 0 s with h | h
  · rw [Int.tdiv_eq_ediv h (by decide)]
    omega
  · have hs : s = -(-s) := by omega
    have h0 : (0 : Int) ≤ -s := by omega
    rw [hs, Int.neg_tdiv, Int.tdiv_eq_ediv h0 (by decide)]
    omega

theorem dispositions_append (t u : List Event) :
    dispositions (t ++ u) = dispositions t ++ dispositions u := by
  simp [dispositions]

theorem reports_append (t u : List Event) :
    reports (t ++ u) = reports t ++ reports u := by
  simp [reports]

/-- `postMessage` itself never acknowledges or rejects. -/
theorem dispositions_postMessage (a : Adapter) (j : Job) :
    dispositions (postMessage a j).2 = [] := by
  unfold postMessage
  cases j.io.newRequest <;> cases j.io.convert <;> cases j.io.send <;>
    simp only [dispositions] <;> (try split) <;> simp [Event.isDisposition]

/-- One loop iteration disposes of its delivery exactly once, as prescribed. -/
theorem dispositions_processOne (a : Adapter) (j : Job) :
    dispositions (processOne a j) = [expectedDisposition a j] := by
  unfold processOne expectedDisposition dispose
  simp only [dispositions_append, dispositions_postMessage]
  cases (postMessage a j).1 <;> cases j.msg.ackErr <;> cases j.msg.nackErr <;>
    simp [dispositions, Event.isDisposition]

/-- C1: on every finite sequence of deliveries read by a worker, whatever
`postMessage`, `Ack` and `Nack` answer, the dispositions issued by
`processMessages` are, in order, exactly one per delivery: `Ack(false)` when
`postMessage` returned nil for it and `Nack(false, false)` otherwise. -/
theorem processMessages_disposes_each_once (a : Adapter) (q : List Job) :
    dispositions (processMessages a q) = q.map (expectedDisposition a) := by
  induction q with
  | nil => rfl
  | cons j rest ih =>
    simp only [processMessages, dispositions_append, dispositions_processOne, ih,
      List.map_cons, List.singleton_append]

/-- `postMessage` on a delivery that is built, converted and answered with a
status in `[200, 300)`. -/
theorem postMessage_of_success (a : Adapter) (j : Job) (s : Int)
    (hreq : j.io.newRequest = none) (hconv : j.io.convert = none)
    (hsend : j.io.send = SendResult.response s) (hs : 200 ≤ s ∧ s < 300) :
    postMessage a j = (none, [Event.logInfo ("target: " ++ a.target),
      Event.reportEventCount a.config.Namespace a.config.Name resourceGroup s]) := by
  have h2 : Int.tdiv s 100 = 2 := (tdiv_hundred_eq_two s).2 hs
  simp [postMessage, hreq, hconv, hsend, h2]

/-- `postMessage` on a failing delivery returns an error and reports nothing. -/
theorem postMessage_of_failure (a : Adapter) (j : Job) (h : j.fails) :
    (postMessage a j).1 ≠ none ∧ reports (postMessage a j).2 = [] := by
  unfold postMessage
  rcases hr : j.io.newRequest with _ | e
  · rcases hc : j.io.convert with _ | e
    · rcases hsd : j.io.send with e | s
      · simp [reports, Event.isReport]
      · have hns : ¬ (200 ≤ s ∧ s < 300) := by
          rcases h with h | h | ⟨e, h⟩ | ⟨s', h, hs'⟩
          · exact absurd hr h
          · exact absurd hc h
          · rw [hsd] at h; cases h
          · rw [hsd] at h; cases h; exact hs'
        have h2 : Int.tdiv s 100 ≠ 2 := fun e => hns ((tdiv_hundred_eq_two s).1 e)
        simp [h2, reports, Event.isReport]
    · simp [reports, Event.isReport]
  · simp [reports, Event.isReport]

/-- C4: a delivery built and converted without error whose send is answered
with a status `s` in `[200, 300)` makes `postMessage` return nil and emit exactly
one event-count report, carrying `s` and the keys (Namespace, Name,
`rabbitmqsources.sources.knative.dev`); the worker issues `Ack(false)` on it and
no `Nack`, whatever `ReportEventCount`, `Ack` and `Nack` answer. -/
theorem success_is_reported_and_acked (a : Adapter) (j : Job) (s : Int)
    (hreq : j.io.newRequest = none) (hconv : j.io.convert = none)
    (hsend : j.io.send = SendResult.response s) (hlo : 200 ≤ s) (hhi : s < 300) :
    (postMessage a j).1 = none ∧
      reports (postMessage a j).2 =
        [Event.reportEventCount a.config.Namespace a.config.Name
          "rabbitmqsources.sources.knative.dev" s] ∧
      reports (processMessages a [j]) =
        [Event.reportEventCount a.config.Namespace a.config.Name
          "rabbitmqsources.sources.knative.dev" s] ∧
      dispositions (processMessages a [j]) = [Event.ack j.msg.deliveryTag false] := by
  have hp := postMessage_of_success a j s hreq hconv hsend ⟨hlo, hhi⟩
  refine ⟨by rw [hp], ?_, ?_, ?_⟩
  · rw [hp]; simp [reports, Event.isReport, resourceGroup]
  · simp only [processMessages, processOne, dispose, hp, List.append_nil]
    cases j.msg.ackErr <;> simp [reports, Event.isReport, resourceGroup]
  · simp only [processMessages, List.append_nil, dispositions_processOne, expectedDisposition,
      hp]

/-- C4 at status 200. -/
theorem success_is_reported_and_acked_witness :
    (postMessage demoAdapter (demoJob 7 200)).1 = none ∧
      reports (postMessage demoAdapter (demoJob 7 200)).2 =
        [Event.reportEventCount "ns" "src" "rabbitmqsources.sources.knative.dev" 200] ∧
      reports (processMessages demoAdapter [demoJob 7 200]) =
        [Event.reportEventCount "ns" "src" "rabbitmqsources.sources.knative.dev" 200] ∧
      dispositions (processMessages demoAdapter [demoJob 7 200]) = [Event.ack 7 false] :=
  success_is_reported_and_acked demoAdapter (demoJob 7 200) 200 rfl rfl rfl (by decide)
    (by decide)

/-- C5: a delivery for which building the request fails, conversion fails, the
send returns a transport error, or the response status is any integer outside
`[200, 300)`, makes `postMessage` return a non-nil error without any event-count
report; the worker issues `Nack(false, false)` on it and no `Ack`. -/
theorem failure_is_nacked_without_report (a : Adapter) (j : Job)
    (h : j.io.newRequest ≠ none ∨ j.io.convert ≠ none ∨
      (∃ e, j.io.send = SendResult.failed e) ∨
      (∃ s : Int, j.io.send = SendResult.response s ∧ ¬ (200 ≤ s ∧ s < 300))) :
    (postMessage a j).1 ≠ none ∧
      reports (processMessages a [j]) = [] ∧
      dispositions (processMessages a [j]) = [Event.nack j.msg.deliveryTag false false] := by
  obtain ⟨h1, h2⟩ := postMessage_of_failure a j h
  refine ⟨h1, ?_, ?_⟩
  · simp only [processMessages, processOne, dispose, List.append_nil, reports_append, h2]
    rcases hp : (postMessage a j).1 with _ | e
    · exact absurd hp h1
    · cases j.msg.nackErr <;> simp [reports, Event.isReport]
  · simp only [processMessages, List.append_nil, dispositions_processOne, expectedDisposition]
    rcases hp : (postMessage a j).1 with _ | e
    · exact absurd hp h1
    · rfl

/-- C5 at status 500. -/
theorem failure_is_nacked_without_report_witness :
    (postMessage demoAdapter (demoJob 9 500)).1 ≠ none ∧
      reports (processMessages demoAdapter [demoJob 9 500]) = [] ∧
      dispositions (processMessages demoAdapter [demoJob 9 500]) =
        [Event.nack 9 false false] :=
  failure_is_nacked_without_report demoAdapter (demoJob 9 500)
    (Or.inr (Or.inr (Or.inr ⟨500, rfl, by decide⟩)))

/-! ## Start-up -/

/-- `PollForMessages` from the subscription on never returns an error. -/
theorem returnsError_pollFromConsume (a : Adapter) (channel : Option Channel)
    (queue : Option Queue) (sched : List Tick) :
    returnsError (pollFromConsume a channel queue sched).1 = false := by
  unfold pollFromConsume ConsumeMessages
  cases channel <;> cases queue <;> try rfl
  simp only
  split
  · rfl
  · simp only
    split <;> rfl

/-- `PollForMessages` never returns an error. -/
theorem returnsError_PollForMessages (a : Adapter) (w : World) (channel : Option Channel)
    (queue : Option Queue) (sched : List Tick) :
    returnsError (PollForMessages a w channel queue sched).1 = false := by
  unfold PollForMessages
  split
  · simp only
    split
    · rfl
    · exact returnsError_pollFromConsume a channel queue sched
  · exact returnsError_pollFromConsume a channel queue sched

/-- What `CreateConn` traces when it returns the error `e`. -/
theorem CreateConn_trace_of_error (a : Adapter) (w : World) (e : GoError)
    (h : (CreateConn a w).1.2 = some e) : (CreateConn a w).2 = [Event.logError e] := by
  unfold CreateConn at h ⊢
  simp only at h ⊢
  rw [h]

/-- C6 (the code at the failing input): when `CreateConn` returns a non-nil
error `e`, `start` logs `e` and does not return a non-nil error, under any
schedule: the error is dropped, and `start` ends as `PollForMessages` does or
panics on the way. -/
theorem start_drops_connection_error (a : Adapter) (w : World) (sched : List Tick)
    (e : GoError) (h : (CreateConn a w).1.2 = some e) :
    returnsError (start a w sched).1 = false ∧ Event.logError e ∈ (start a w sched).2 := by
  have ht := CreateConn_trace_of_error a w e h
  unfold start
  simp only [ht]
  split
  · exact ⟨rfl, by simp⟩
  · split
    · split
      · exact ⟨rfl, by simp⟩
      · split
        · exact ⟨returnsError_PollForMessages a w _ _ sched, by simp⟩
        · exact ⟨rfl, by simp⟩
    · exact ⟨rfl, by simp⟩

/-- C6 at a broker that cannot be reached: `CreateConn` returns the dial
error, `start` logs it and panics in `CreateChannel`. -/
theorem start_drops_connection_error_witness :
    (CreateConn demoAdapter downWorld).1.2 = some "dial tcp: connection refused" ∧
      (start demoAdapter downWorld []).1 = Outcome.panicked ∧
      returnsError (start demoAdapter downWorld []).1 = false ∧
      Event.logError "dial tcp: connection refused" ∈ (start demoAdapter downWorld []).2 :=
  ⟨rfl, rfl, start_drops_connection_error demoAdapter downWorld [] _ rfl⟩

/-- C7 (as stated, refuted): with an empty `BackoffDelay` and the invalid
policy `bogus`, `PollForMessages` is not fatal; it subscribes to the queue and
starts its workers. -/
theorem PollForMessages_empty_delay_counterexample :
    demoSetBackoffPolicy "bogus" = "" ∧
      (PollForMessages (demoAdapterWith "bogus" "") (demoWorld (demoChannel []))
        (some (demoChannel [])) (some { name := "q" }) []).1 = Outcome.running ∧
      (PollForMessages (demoAdapterWith "bogus" "") (demoWorld (demoChannel []))
        (some (demoChannel [])) (some { name := "q" }) []).2 =
        [Event.consume "q" "" false false false false,
         Event.logInfo "Starting GoRoutines Workers: ",
         Event.spawnWorker 0, Event.spawnWorker 1] := by
  decide

/-- C7 (amended): with a non-empty `BackoffDelay` and a backoff-policy value
that `SetBackoffPolicy` maps to the empty policy, `PollForMessages` ends in the
fatal log, whatever the other fields, the channel, the queue and the schedule:
nothing else is traced, so no `Consume` is issued and no worker is started. -/
theorem PollForMessages_invalid_policy_fatal (a : Adapter) (w : World)
    (channel : Option Channel) (queue : Option Queue) (sched : List Tick)
    (hdelay : a.config.BackoffDelay ≠ "")
    (hpolicy : w.setBackoffPolicy a.config.BackoffPolicy = "") :
    PollForMessages a w channel queue sched =
        (Outcome.fatal, [Event.logFatal "Invalid BACKOFF_POLICY specified"]) ∧
      consumesOrSpawns (PollForMessages a w channel queue sched).2 = false := by
  have h : PollForMessages a w channel queue sched =
      (Outcome.fatal, [Event.logFatal "Invalid BACKOFF_POLICY specified"]) := by
    unfold PollForMessages
    simp [hdelay, hpolicy]
  rw [h]
  exact ⟨rfl, by decide⟩

/-- C7 (amended) at delay `50ms` and policy `bogus`. -/
theorem PollForMessages_invalid_policy_fatal_witness :
    PollForMessages (demoAdapterWith "bogus" "50ms") (demoWorld (demoChannel []))
        (some (demoChannel [])) (some { name := "q" }) [] =
        (Outcome.fatal, [Event.logFatal "Invalid BACKOFF_POLICY specified"]) ∧
      consumesOrSpawns (PollForMessages (demoAdapterWith "bogus" "50ms")
        (demoWorld (demoChannel [])) (some (demoChannel [])) (some { name := "q" }) []).2 =
        false :=
  PollForMessages_invalid_policy_fatal (demoAdapterWith "bogus" "50ms")
    (demoWorld (demoChannel [])) (some (demoChannel [])) (some { name := "q" }) []
    (by decide) (by decide)

/-- `PollForMessages` on a non-nil channel and queue, with a configuration it
accepts: it subscribes, starts the workers and ends as the dispatch loop does. -/
theorem PollForMessages_subscribes (a : Adapter) (w : World) (ch : Channel) (q : Queue)
    (sched : List Tick)
    (hpolicy : a.config.BackoffDelay = "" ∨ w.setBackoffPolicy a.config.BackoffPolicy ≠ "")
    (hpar : 0 ≤ a.config.Parallelism) :
    (PollForMessages a w (some ch) (some q) sched).1 =
        (if (dispatch a ch.consumeMsgs sched).main = MainPc.done then Outcome.returned none
         else Outcome.running) ∧
      Event.consume q.name "" false false false false ∈
        (PollForMessages a w (some ch) (some q) sched).2 ∧
      Event.logInfo "Starting GoRoutines Workers: " ∈
        (PollForMessages a w (some ch) (some q) sched).2 ∧
      (dispatch a ch.consumeMsgs sched).trace <:+
        (PollForMessages a w (some ch) (some q) sched).2 := by
  have hp : ¬ a.config.Parallelism < 0 := by omega
  have hc : (pollFromConsume a (some ch) (some q) sched).1 =
        (if (dispatch a ch.consumeMsgs sched).main = MainPc.done then Outcome.returned none
         else Outcome.running) ∧
      Event.consume q.name "" false false false false ∈
        (pollFromConsume a (some ch) (some q) sched).2 ∧
      Event.logInfo "Starting GoRoutines Workers: " ∈
        (pollFromConsume a (some ch) (some q) sched).2 ∧
      (dispatch a ch.consumeMsgs sched).trace <:+
        (pollFromConsume a (some ch) (some q) sched).2 := by
    simp only [pollFromConsume, ConsumeMessages, hp, if_false]
    refine ⟨by trivial, by simp, by simp, List.suffix_append _ _⟩
  unfold PollForMessages
  by_cases hd : a.config.BackoffDelay = ""
  · simp only [hd, ne_eq, not_true_eq_false, if_false]
    exact hc
  · have hpol : w.setBackoffPolicy a.config.BackoffPolicy ≠ "" := by
      rcases hpolicy with h | h
      · exact absurd h hd
      · exact h
    simp only [ne_eq, hd, not_false_eq_true, if_true, hpol, if_false]
    obtain ⟨h1, h2, h3, h4⟩ := hc
    refine ⟨h1, List.mem_append_right _ h2, List.mem_append_right _ h3, ?_⟩
    exact h4.trans (List.suffix_append _ _)

/-- C8: when the connection and the channel are established and `QueueInspect`
answers an error `e`, with whatever queue value `q` the client hands back with
it, `start` logs `e` and does not abort: it goes on to `PollForMessages` with
that queue, which (on a configuration it accepts: a valid backoff policy or no
delay, a non-negative `Parallelism`) issues `Consume` on the queue's name,
starts the workers and runs the dispatch loop.  `start` ends as the dispatch
loop does: it returns nil or is still running, and neither panics nor exits. -/
theorem start_proceeds_after_inspect_error (a : Adapter) (w : World) (sched : List Tick)
    (conn : Conn) (ch : Channel) (q : Queue) (e : GoError)
    (hdial : w.dial (vhostHandler a.config.RabbitURL a.config.Vhost) = (some conn, none))
    (hch : conn.channel = some (some ch, none))
    (hq : ch.inspectQueue = some q) (he : ch.inspectErr = some e)
    (hpolicy : a.config.BackoffDelay = "" ∨ w.setBackoffPolicy a.config.BackoffPolicy ≠ "")
    (hpar : 0 ≤ a.config.Parallelism) :
    (start a w sched).1 =
        (if (dispatch a ch.consumeMsgs sched).main = MainPc.done then Outcome.returned none
         else Outcome.running) ∧
      (start a w sched).1 ≠ Outcome.panicked ∧
      (start a w sched).1 ≠ Outcome.fatal ∧
      (start a w sched).2 =
        [Event.logInfo "Starting with config: ",
         Event.logInfo "Initializing Channel with Config: ",
         Event.qos a.config.Parallelism 0 false,
         Event.queueInspect a.config.QueueName,
         Event.logError e] ++
          (PollForMessages a w (some ch) (some q) sched).2 ++
          deferred (ch.qosErr = none) true (start a w sched).1 ∧
      Event.consume q.name "" false false false false ∈ (start a w sched).2 ∧
      Event.logInfo "Starting GoRoutines Workers: " ∈ (start a w sched).2 ∧
      (dispatch a ch.consumeMsgs sched).trace <:+
        (PollForMessages a w (some ch) (some q) sched).2 := by
  obtain ⟨h1, h2, h3, h4⟩ := PollForMessages_subscribes a w ch q sched hpolicy hpar
  have hs : start a w sched =
      ((PollForMessages a w (some ch) (some q) sched).1,
        [Event.logInfo "Starting with config: ",
         Event.logInfo "Initializing Channel with Config: ",
         Event.qos a.config.Parallelism 0 false,
         Event.queueInspect a.config.QueueName,
         Event.logError e] ++
          (PollForMessages a w (some ch) (some q) sched).2 ++
          deferred (ch.qosErr = none) true (PollForMessages a w (some ch) (some q) sched).1) := by
    simp [start, CreateConn, CreateChannel, StartAmqpClient, hdial, hch, hq, he]
  rw [hs]
  refine ⟨h1, ?_, ?_, rfl, ?_, ?_, h4⟩
  · show (PollForMessages a w (some ch) (some q) sched).1 ≠ Outcome.panicked
    rw [h1]; split <;> simp
  · show (PollForMessages a w (some ch) (some q) sched).1 ≠ Outcome.fatal
    rw [h1]; split <;> simp
  · simp [h2]
  · simp [h3]

/-- C8 at a broker on which queue `q` is missing, with the stop signal raised
at once: `start` logs the inspection error, issues `Consume`, starts its two
workers and returns nil. -/
theorem start_proceeds_after_inspect_error_witness :
    start demoAdapter (demoWorld missingQueueChannel) stopSchedule =
        (Outcome.returned none,
          [Event.logInfo "Starting with config: ",
           Event.logInfo "Initializing Channel with Config: ",
           Event.qos 2 0 false,
           Event.queueInspect "q",
           Event.logError "Exception (404) Reason: NOT_FOUND - no queue q in vhost /",
           Event.logError "error retrieving retryConfig from deliverySpec",
           Event.consume "q" "" false false false false,
           Event.logError "Exception (504) Reason: channel/connection is not open",
           Event.logInfo "Starting GoRoutines Workers: ",
           Event.spawnWorker 0, Event.spawnWorker 1,
           Event.closeQueue,
           Event.logInfo "Shutting down...",
           Event.closeChannel, Event.closeConn]) ∧
      ((start demoAdapter (demoWorld missingQueueChannel) stopSchedule).1 =
          (if (dispatch demoAdapter missingQueueChannel.consumeMsgs stopSchedule).main =
              MainPc.done then Outcome.returned none
           else Outcome.running) ∧
        (start demoAdapter (demoWorld missingQueueChannel) stopSchedule).1 ≠ Outcome.panicked ∧
        (start demoAdapter (demoWorld missingQueueChannel) stopSchedule).1 ≠ Outcome.fatal ∧
        (start demoAdapter (demoWorld missingQueueChannel) stopSchedule).2 =
          [Event.logInfo "Starting with config: ",
           Event.logInfo "Initializing Channel with Config: ",
           Event.qos demoAdapter.config.Parallelism 0 false,
           Event.queueInspect demoAdapter.config.QueueName,
           Event.logError "Exception (404) Reason: NOT_FOUND - no queue q in vhost /"] ++
            (PollForMessages demoAdapter (demoWorld missingQueueChannel)
              (some missingQueueChannel) (some { name := "q" }) stopSchedule).2 ++
            deferred (missingQueueChannel.qosErr = none) true
              (start demoAdapter (demoWorld missingQueueChannel) stopSchedule).1 ∧
        Event.consume ({ name := "q" } : Queue).name "" false false false false ∈
          (start demoAdapter (demoWorld missingQueueChannel) stopSchedule).2 ∧
        Event.logInfo "Starting GoRoutines Workers: " ∈
          (start demoAdapter (demoWorld missingQueueChannel) stopSchedule).2 ∧
        (dispatch demoAdapter missingQueueChannel.consumeMsgs stopSchedule).trace <:+
          (PollForMessages demoAdapter (demoWorld missingQueueChannel)
            (some missingQueueChannel) (some { name := "q" }) stopSchedule).2) :=
  ⟨by decide,
    start_proceeds_after_inspect_error demoAdapter (demoWorld missingQueueChannel) stopSchedule
      { channel := some (some missingQueueChannel, none) } missingQueueChannel { name := "q" }
      "Exception (404) Reason: NOT_FOUND - no queue q in vhost /" rfl rfl rfl rfl
      (Or.inr (by decide)) (by decide)⟩

/-! ## The dispatch loop and its workers -/

/-- Replacing the `i`-th element of a list moves its share of a sum. -/
theorem sum_map_set {W M : Type} [AddCommMonoid M] (f : W → M) (x : W) :
    ∀ (l : List W) (i : Nat) (w : W), l[i]? = some w →
      ((l.set i x).map f).sum + f w = (l.map f).sum + f x
  | [], _, _, h => by simp at h
  | v :: l, 0, w, h => by
    simp only [List.getElem?_cons_zero, Option.some.injEq] at h
    subst h
    simp only [List.set_cons_zero, List.map_cons, List.sum_cons]
    abel
  | v :: l, i + 1, w, h => by
    simp only [List.getElem?_cons_succ] at h
    have ih := sum_map_set f x l i w h
    simp only [List.set_cons_succ, List.map_cons, List.sum_cons, add_assoc, ih]

theorem Pool.Inv_init (a : Adapter) (n : Nat) (msgs : Option Stream) :
    Pool.Inv a n (Pool.init n msgs) := by
  refine ⟨by simp [Pool.init], ?_, by simp [Pool.init], by simp [Pool.init], ?_,
    by simp [Pool.init], ?_⟩
  · simp [Pool.init, WorkerPc.live]
  · simp [Pool.init]
  · simp [Pool.init, Pool.owed, dispositions, WorkerPc.owed]

theorem Pool.Inv_stop (a : Adapter) (n : Nat) (p : Pool) (h : Pool.Inv a n p) :
    Pool.Inv a n { p with stopped := true } :=
  ⟨h.workers_length, h.wg_eq, h.closed_iff, h.done_wg, h.exited_drained,
    fun _ => Or.inl rfl, h.balance⟩

theorem dispositions_closeQueue (t : List Event) :
    dispositions (t ++ [Event.closeQueue]) = dispositions t := by
  simp [dispositions, Event.isDisposition]

theorem Pool.Inv_onStop (a : Adapter) (n : Nat) (p : Pool) (h : Pool.Inv a n p) :
    Pool.Inv a n (p.step a Tick.onStop) := by
  simp only [Pool.step]
  split
  · rename_i hm
    split
    · rename_i hs
      have hopen : ¬ p.closed = true := fun hc => by
        rcases h.closed_iff.1 hc with h1 | h1 | h1 <;> rw [hm] at h1 <;> cases h1
      refine ⟨h.workers_length, h.wg_eq, by simp, by simp, ?_, fun _ => Or.inl hs, ?_⟩
      · intro he
        exact absurd (h.exited_drained he).1 hopen
      · have hb := h.balance
        simp only [Pool.owed, dispositions_closeQueue] at hb ⊢
        exact hb
    · exact h
  · exact h

theorem Pool.Inv_onMsg (a : Adapter) (n : Nat) (p : Pool) (h : Pool.Inv a n p) :
    Pool.Inv a n (p.step a Tick.onMsg) := by
  simp only [Pool.step]
  split
  · rename_i st hm hmsgs
    have hopen : ¬ p.closed = true := fun hc => by
      rcases h.closed_iff.1 hc with h1 | h1 | h1 <;> rw [hm] at h1 <;> cases h1
    split
    · rename_i j rest hd
      refine ⟨h.workers_length, h.wg_eq, ?_, by simp, h.exited_drained, ?_, h.balance⟩
      · simp only [reduceCtorEq, or_self, iff_false]
        exact hopen
      · intro hc
        exact absurd hc hopen
    · rename_i hd
      split
      · rename_i hcl
        refine ⟨h.workers_length, h.wg_eq, by simp, by simp, ?_,
          fun _ => Or.inr ⟨st, hmsgs, hd, hcl⟩, ?_⟩
        · intro he
          exact absurd (h.exited_drained he).1 hopen
        · have hb := h.balance
          simp only [Pool.owed, dispositions_closeQueue] at hb ⊢
          exact hb
      · exact h
  · exact h

theorem Pool.Inv_main (a : Adapter) (n : Nat) (p : Pool) (h : Pool.Inv a n p) :
    Pool.Inv a n (p.step a Tick.main) := by
  simp only [Pool.step]
  split
  · rename_i j hm
    have hopen : ¬ p.closed = true := fun hc => by
      rcases h.closed_iff.1 hc with h1 | h1 | h1 <;> rw [hm] at h1 <;> cases h1
    split
    · refine ⟨h.workers_length, h.wg_eq, ?_, by simp, ?_, ?_, ?_⟩
      · simp only [reduceCtorEq, or_self, iff_false]
        exact hopen
      · intro he
        exact absurd (h.exited_drained he).1 hopen
      · intro hc
        exact absurd hc hopen
      · have hb := h.balance
        simp only [Pool.owed, List.map_append, List.map_cons, List.map_nil,
          ← Multiset.coe_add] at hb ⊢
        rw [← hb]
        abel
    · exact h
  · rename_i hm
    split
    · rename_i hwg
      refine ⟨h.workers_length, h.wg_eq, ?_, fun _ => hwg, h.exited_drained, h.closed_cause, ?_⟩
      · have hc : p.closed = true := h.closed_iff.2 (Or.inl hm)
        simp [hc]
      · have hb := h.balance
        simp only [Pool.owed] at hb ⊢
        rw [← hb]
        simp [dispositions, Event.isDisposition]
    · exact h
  · rename_i hm
    split
    · rename_i hwg
      refine ⟨h.workers_length, h.wg_eq, ?_, fun _ => hwg, h.exited_drained, h.closed_cause,
        h.balance⟩
      have hc : p.closed = true := h.closed_iff.2 (Or.inr (Or.inl hm))
      simp [hc]
    · exact h
  · exact h

theorem dispositions_dispose (a : Adapter) (j : Job) :
    dispositions (dispose j.msg (postMessage a j).1) = [expectedDisposition a j] := by
  unfold dispose expectedDisposition
  cases (postMessage a j).1 <;> cases j.msg.ackErr <;> cases j.msg.nackErr <;>
    simp [dispositions, Event.isDisposition]

/-- Moving worker `i` from `w` to `x` moves what it owes. -/
theorem owed_sum_set (a : Adapter) (l : List WorkerPc) (i : Nat) (w x : WorkerPc)
    (h : l[i]? = some w) :
    ((l.set i x).map fun v => (↑(v.owed a) : Multiset Event)).sum + ↑(w.owed a) =
      (l.map fun v => (↑(v.owed a) : Multiset Event)).sum + ↑(x.owed a) :=
  sum_map_set (fun v => (↑(v.owed a) : Multiset Event)) x l i w h

/-- A worker step that leaves the worker alive and the relay queue, the
dispatch loop and the wait group alone keeps the invariant, when the
dispositions traced and owed stay in balance. -/
theorem Pool.Inv_of_worker_move (a : Adapter) (n : Nat) (p : Pool) (h : Pool.Inv a n p)
    (i : Nat) (w x : WorkerPc) (q : List Job) (t : List Event)
    (hw : p.workers[i]? = some w) (hwl : w.live = 1) (hxl : x.live = 1)
    (hq : p.queue = q ∨ ∃ j, p.queue = j :: q)
    (hb : (↑(dispositions t) : Multiset Event) + ↑(q.map (expectedDisposition a)) +
        ↑(x.owed a) =
      ↑(dispositions p.trace) + ↑(p.queue.map (expectedDisposition a)) + ↑(w.owed a)) :
    Pool.Inv a n { p with queue := q, workers := p.workers.set i x, trace := t } := by
  have hx : x ≠ WorkerPc.exited := fun e => by rw [e] at hxl; cases hxl
  refine ⟨by simp [h.workers_length], ?_, h.closed_iff, h.done_wg, ?_, h.closed_cause, ?_⟩
  · have hs := sum_map_set WorkerPc.live x p.workers i w hw
    have := h.wg_eq
    simp only
    omega
  · intro he
    simp only at he ⊢
    rcases List.mem_or_eq_of_mem_set he with he | he
    · obtain ⟨hc, hq0⟩ := h.exited_drained he
      refine ⟨hc, ?_⟩
      rcases hq with hq | ⟨j, hq⟩
      · rw [← hq, hq0]
      · rw [hq0] at hq; cases hq
    · exact absurd he.symm hx
  · have hs := owed_sum_set a p.workers i w x hw
    have hb0 := h.balance
    simp only [Pool.owed] at hb0 ⊢
    apply add_right_cancel (b := (↑(w.owed a) : Multiset Event))
    rw [← hb0]
    calc (↑(dispositions t) : Multiset Event) +
          (↑(q.map (expectedDisposition a)) +
            ((p.workers.set i x).map fun v => (↑(v.owed a) : Multiset Event)).sum) +
          ↑(w.owed a)
        = ↑(dispositions t) + ↑(q.map (expectedDisposition a)) +
            (((p.workers.set i x).map fun v => (↑(v.owed a) : Multiset Event)).sum +
              ↑(w.owed a)) := by abel
      _ = (↑(dispositions t) + ↑(q.map (expectedDisposition a)) + ↑(x.owed a)) +
            (p.workers.map fun v => (↑(v.owed a) : Multiset Event)).sum := by
          rw [hs]; abel
      _ = _ := by rw [hb]; abel

theorem Pool.Inv_stepWorker (a : Adapter) (n : Nat) (p : Pool) (h : Pool.Inv a n p)
    (i : Nat) : Pool.Inv a n (p.stepWorker a i) := by
  unfold Pool.stepWorker
  split
  · exact h
  · rename_i hw
    split
    · rename_i j rest hq
      refine Pool.Inv_of_worker_move a n p h i _ _ rest _ hw rfl rfl (Or.inr ⟨j, hq⟩) ?_
      rw [hq]
      simp only [dispositions_append, WorkerPc.owed, List.map_cons]
      rw [← List.singleton_append (l := List.map (expectedDisposition a) rest)]
      simp only [← Multiset.coe_add, dispositions, List.filter_cons, Event.isDisposition,
        List.filter_nil]
      simp only [Bool.false_eq_true, if_false, Multiset.coe_nil, add_zero]
      abel
    · rename_i hq
      split
      · rename_i hc
        refine ⟨by simp [h.workers_length], ?_, h.closed_iff, ?_, fun _ => ⟨hc, hq⟩,
          h.closed_cause, ?_⟩
        · have hs := sum_map_set WorkerPc.live WorkerPc.exited p.workers i _ hw
          have := h.wg_eq
          simp only [WorkerPc.live] at hs ⊢
          omega
        · intro hm
          have := h.done_wg hm
          simp only
          omega
        · have hs := owed_sum_set a p.workers i _ WorkerPc.exited hw
          have hb0 := h.balance
          simp only [Pool.owed, WorkerPc.owed, Multiset.coe_nil, add_zero] at hb0 hs ⊢
          rw [hs]
          exact hb0
      · exact h
  · rename_i j hw
    have := Pool.Inv_of_worker_move a n p h i _ (WorkerPc.posted j (postMessage a j).1) p.queue
      (p.trace ++ (postMessage a j).2) hw rfl rfl (Or.inl rfl) (by
        simp only [dispositions_append, dispositions_postMessage, List.append_nil,
          WorkerPc.owed, dispositions_dispose])
    exact this
  · rename_i j err hw
    have := Pool.Inv_of_worker_move a n p h i _ WorkerPc.ranging p.queue
      (p.trace ++ dispose j.msg err) hw rfl rfl (Or.inl rfl) (by
        simp only [dispositions_append, WorkerPc.owed, ← Multiset.coe_add, Multiset.coe_nil,
          add_zero]
        abel)
    exact this
  · exact h

theorem Pool.Inv_step (a : Adapter) (n : Nat) (p : Pool) (h : Pool.Inv a n p) (t : Tick) :
    Pool.Inv a n (p.step a t) := by
  cases t with
  | stop => exact Pool.Inv_stop a n p h
  | onStop => exact Pool.Inv_onStop a n p h
  | onMsg => exact Pool.Inv_onMsg a n p h
  | main => exact Pool.Inv_main a n p h
  | worker i => exact Pool.Inv_stepWorker a n p h i

theorem Pool.Inv_run (a : Adapter) (n : Nat) (sched : List Tick) :
    ∀ p : Pool, Pool.Inv a n p → Pool.Inv a n (Pool.run a p sched) := by
  induction sched with
  | nil => exact fun p h => h
  | cons t rest ih => exact fun p h => ih _ (Pool.Inv_step a n p h t)

/-- `PollForMessages` from the subscription on returns only once the dispatch
loop is done. -/
theorem dispatch_done_of_pollFromConsume (a : Adapter) (ch : Channel) (q : Queue)
    (sched : List Tick)
    (h : (pollFromConsume a (some ch) (some q) sched).1 = Outcome.returned none) :
    (dispatch a ch.consumeMsgs sched).main = MainPc.done := by
  unfold pollFromConsume ConsumeMessages at h
  simp only at h
  split at h
  · cases h
  · simp only at h
    split at h
    · assumption
    · cases h

/-- `PollForMessages` returns only once the dispatch loop is done. -/
theorem dispatch_done_of_PollForMessages (a : Adapter) (w : World) (ch : Channel) (q : Queue)
    (sched : List Tick)
    (h : (PollForMessages a w (some ch) (some q) sched).1 = Outcome.returned none) :
    (dispatch a ch.consumeMsgs sched).main = MainPc.done := by
  unfold PollForMessages at h
  split at h
  · simp only at h
    split at h
    · cases h
    · exact dispatch_done_of_pollFromConsume a ch q sched h
  · exact dispatch_done_of_pollFromConsume a ch q sched h

/-- What the invariant gives once the dispatch loop is done. -/
theorem Pool.drained_of_done (a : Adapter) (n : Nat) (hn : 1 ≤ n) (p : Pool)
    (h : Pool.Inv a n p) (hd : p.main = MainPc.done) :
    p.closed = true ∧ (p.stopped = true ∨ p.streamEnded = true) ∧
      p.workers = List.replicate n WorkerPc.exited ∧ p.queue = [] ∧
      (dispositions p.trace).Perm (p.admitted.map (expectedDisposition a)) := by
  have hc : p.closed = true := h.closed_iff.2 (Or.inr (Or.inr hd))
  have hall : ∀ w ∈ p.workers, w = WorkerPc.exited := by
    intro w hw
    have h0 : (p.workers.map WorkerPc.live).sum = 0 := by
      rw [← h.wg_eq]; exact h.done_wg hd
    have := (List.sum_eq_zero_iff.1 h0) w.live (List.mem_map_of_mem _ hw)
    cases w <;> first | rfl | cases this
  have hw : p.workers = List.replicate n WorkerPc.exited :=
    List.eq_replicate_iff.2 ⟨h.workers_length, hall⟩
  have hmem : WorkerPc.exited ∈ p.workers := by
    rw [hw]
    exact List.mem_replicate.2 ⟨by omega, rfl⟩
  have hq : p.queue = [] := (h.exited_drained hmem).2
  refine ⟨hc, ?_, hw, hq, ?_⟩
  · rcases h.closed_cause hc with hs | ⟨st, h1, h2, h3⟩
    · exact Or.inl hs
    · right
      simp [Pool.streamEnded, h1, h2, h3]
  · have hb := h.balance
    have hz : (p.workers.map fun v => (↑(v.owed a) : Multiset Event)).sum = 0 := by
      rw [hw]
      simp [WorkerPc.owed]
    simp only [Pool.owed, hq, hz, List.map_nil, Multiset.coe_nil, add_zero] at hb
    exact Multiset.coe_eq_coe.1 hb

/-- C9: with `Parallelism` at least 1, whenever `PollForMessages` has returned
(under any schedule of the dispatch loop and the workers, any delivery stream
and any answers of the sink), the relay queue is closed, which happened on the
stop signal or on the closed delivery stream; all `Parallelism` workers have
exited; the relay queue is empty; and the dispositions issued are, up to order,
exactly one for each delivery that was placed on the relay queue. -/
theorem PollForMessages_returns_after_drain (a : Adapter) (w : World) (ch : Channel)
    (q : Queue) (sched : List Tick) (hN : 1 ≤ a.config.Parallelism)
    (hret : (PollForMessages a w (some ch) (some q) sched).1 = Outcome.returned none) :
    (dispatch a ch.consumeMsgs sched).closed = true ∧
      ((dispatch a ch.consumeMsgs sched).stopped = true ∨
        (dispatch a ch.consumeMsgs sched).streamEnded = true) ∧
      (dispatch a ch.consumeMsgs sched).workers =
        List.replicate a.config.Parallelism.toNat WorkerPc.exited ∧
      (dispatch a ch.consumeMsgs sched).queue = [] ∧
      (dispositions (dispatch a ch.consumeMsgs sched).trace).Perm
        ((dispatch a ch.consumeMsgs sched).admitted.map (expectedDisposition a)) := by
  have hd := dispatch_done_of_PollForMessages a w ch q sched hret
  have hinv : Pool.Inv a a.config.Parallelism.toNat (dispatch a ch.consumeMsgs sched) :=
    Pool.Inv_run a _ sched _ (Pool.Inv_init a _ _)
  exact Pool.drained_of_done a _ (by omega) _ hinv hd

/-- C9 at `Parallelism = 2` with three deliveries: when the stop signal is
raised, two deliveries sit on the relay queue and worker 0 holds the third; the
dispatch loop does not return while the workers drain; once `PollForMessages`
has returned, all three have been disposed of. -/
theorem PollForMessages_returns_after_drain_witness :
    ((dispatch demoAdapter (demoChannel demoJobs).consumeMsgs (demoSchedule.take 8)).stopped =
        true ∧
      (dispatch demoAdapter (demoChannel demoJobs).consumeMsgs (demoSchedule.take 8)).queue =
        [demoJob 2 500, demoJob 3 204] ∧
      (dispatch demoAdapter (demoChannel demoJobs).consumeMsgs (demoSchedule.take 8)).workers =
        [WorkerPc.received (demoJob 1 200), WorkerPc.ranging] ∧
      (dispatch demoAdapter (demoChannel demoJobs).consumeMsgs (demoSchedule.take 10)).main =
        MainPc.waitStop ∧
      dispositions (dispatch demoAdapter (demoChannel demoJobs).consumeMsgs demoSchedule).trace =
        [Event.ack 1 false, Event.nack 2 false false, Event.ack 3 false]) ∧
    ((dispatch demoAdapter (demoChannel demoJobs).consumeMsgs demoSchedule).closed = true ∧
      ((dispatch demoAdapter (demoChannel demoJobs).consumeMsgs demoSchedule).stopped = true ∨
        (dispatch demoAdapter (demoChannel demoJobs).consumeMsgs demoSchedule).streamEnded =
          true) ∧
      (dispatch demoAdapter (demoChannel demoJobs).consumeMsgs demoSchedule).workers =
        List.replicate demoAdapter.config.Parallelism.toNat WorkerPc.exited ∧
      (dispatch demoAdapter (demoChannel demoJobs).consumeMsgs demoSchedule).queue = [] ∧
      (dispositions (dispatch demoAdapter (demoChannel demoJobs).consumeMsgs demoSchedule).trace).Perm
        ((dispatch demoAdapter (demoChannel demoJobs).consumeMsgs demoSchedule).admitted.map
          (expectedDisposition demoAdapter))) :=
  ⟨by decide,
    PollForMessages_returns_after_drain demoAdapter (demoWorld (demoChannel demoJobs))
      (demoChannel demoJobs) { name := "q" } demoSchedule (by decide) (by decide)⟩

end Rabbitmq

namespace Rabbit

open Rabbitmq (GoError)

/-- C10 (as stated, refuted): on the helper of the test,
`NewRabbitMQHelper(2, make(chan bool))`, with nothing sent on the retry channel
and no broker listening, the call of `SetupRabbitMQ` returns the dial error and
a nil connection; the only signal on the retry channel afterwards is the
call's own "retry", so the error is returned although no "stop retrying" was
ever answered; the checks of the test pass on this result. -/
theorem SetupRabbitMQ_returns_unanswered_counterexample :
    (NewRabbitMQHelper 2 []).retryChannel = [] ∧
      (SetupRabbitMQ refusedDial (NewRabbitMQHelper 2 []) "amqp://localhost:5672/%2f").err =
        some "dial tcp 127.0.0.1:5672: connect: connection refused" ∧
      (SetupRabbitMQ refusedDial (NewRabbitMQHelper 2 []) "amqp://localhost:5672/%2f").conn = none ∧
      (SetupRabbitMQ refusedDial (NewRabbitMQHelper 2 []) "amqp://localhost:5672/%2f").helper.retryChannel =
        [true] ∧
      false ∉
        (SetupRabbitMQ refusedDial (NewRabbitMQHelper 2 []) "amqp://localhost:5672/%2f").helper.retryChannel ∧
      (SetupRabbitMQ refusedDial (NewRabbitMQHelper 2 []) "amqp://localhost:5672/%2f").helper.retryCounter = 1 ∧
      testFailures (SetupRabbitMQ refusedDial (NewRabbitMQHelper 2 []) "amqp://localhost:5672/%2f") = [] := by
  decide

/-- C10 (amended): when the dial fails with `e`, a call of `SetupRabbitMQ`
increases the retry counter by one (so it is greater than before, and greater
than 0), emits the retry signal `true` after whatever is on the retry channel,
and returns `e` with a nil connection, whatever the controller has or has not
answered; the checks of the test pass, the signal is there for whoever awaits
it, and `CleanupRabbitMQ` completes on the connection returned. -/
theorem SetupRabbitMQ_failed_attempt (dial : String → Option GoError) (h : RabbitMQHelper)
    (url : String) (e : GoError) (hfail : dial url = some e) :
    (SetupRabbitMQ dial h url).err = some e ∧
      (SetupRabbitMQ dial h url).conn = none ∧
      (SetupRabbitMQ dial h url).helper.retryCounter = h.retryCounter + 1 ∧
      h.retryCounter < (SetupRabbitMQ dial h url).helper.retryCounter ∧
      0 < (SetupRabbitMQ dial h url).helper.retryCounter ∧
      (SetupRabbitMQ dial h url).helper.retryChannel = h.retryChannel ++ [true] ∧
      (SetupRabbitMQ dial h url).steps =
        [SetupStep.dial url, SetupStep.logError e, SetupStep.wait h.cycleDuration,
         SetupStep.signalRetry true] ∧
      (WaitForRetrySignal (SetupRabbitMQ dial h url).helper).isSome = true ∧
      testFailures (SetupRabbitMQ dial h url) = [] ∧
      CleanupRabbitMQ (SetupRabbitMQ dial h url).conn = some [] := by
  have hr : SetupRabbitMQ dial h url =
      { helper := SignalRetry { h with retryCounter := h.retryCounter + 1 } true,
        conn := none, err := some e,
        steps := [SetupStep.dial url, SetupStep.logError e, SetupStep.wait h.cycleDuration,
                  SetupStep.signalRetry true] } := by
    simp [SetupRabbitMQ, hfail]
  rw [hr]
  refine ⟨rfl, rfl, rfl, Nat.lt_succ_self _, Nat.succ_pos _, rfl, rfl, ?_, ?_, rfl⟩
  · cases hc : h.retryChannel <;> simp [WaitForRetrySignal, SignalRetry, hc]
  · simp [testFailures, SignalRetry]

/-- C10 (amended) on the helper of the test, `NewRabbitMQHelper(2, ...)` with
URL `amqp://localhost:5672/%2f` and no broker listening. -/
theorem SetupRabbitMQ_failed_attempt_witness :
    (SetupRabbitMQ refusedDial (NewRabbitMQHelper 2 []) "amqp://localhost:5672/%2f").err =
        some "dial tcp 127.0.0.1:5672: connect: connection refused" ∧
      (SetupRabbitMQ refusedDial (NewRabbitMQHelper 2 []) "amqp://localhost:5672/%2f").conn = none ∧
      (SetupRabbitMQ refusedDial (NewRabbitMQHelper 2 []) "amqp://localhost:5672/%2f").helper.retryCounter =
        (NewRabbitMQHelper 2 []).retryCounter + 1 ∧
      (NewRabbitMQHelper 2 []).retryCounter <
        (SetupRabbitMQ refusedDial (NewRabbitMQHelper 2 []) "amqp://localhost:5672/%2f").helper.retryCounter ∧
      0 < (SetupRabbitMQ refusedDial (NewRabbitMQHelper 2 []) "amqp://localhost:5672/%2f").helper.retryCounter ∧
      (SetupRabbitMQ refusedDial (NewRabbitMQHelper 2 []) "amqp://localhost:5672/%2f").helper.retryChannel =
        (NewRabbitMQHelper 2 []).retryChannel ++ [true] ∧
      (SetupRabbitMQ refusedDial (NewRabbitMQHelper 2 []) "amqp://localhost:5672/%2f").steps =
        [SetupStep.dial "amqp://localhost:5672/%2f", SetupStep.logError "dial tcp 127.0.0.1:5672: connect: connection refused",
         SetupStep.wait (NewRabbitMQHelper 2 []).cycleDuration, SetupStep.signalRetry true] ∧
      (WaitForRetrySignal (SetupRabbitMQ refusedDial (NewRabbitMQHelper 2 []) "amqp://localhost:5672/%2f").helper).isSome = true ∧
      testFailures (SetupRabbitMQ refusedDial (NewRabbitMQHelper 2 []) "amqp://localhost:5672/%2f") = [] ∧
      CleanupRabbitMQ (SetupRabbitMQ refusedDial (NewRabbitMQHelper 2 []) "amqp://localhost:5672/%2f").conn = some [] :=
  SetupRabbitMQ_failed_attempt refusedDial (NewRabbitMQHelper 2 []) "amqp://localhost:5672/%2f" "dial tcp 127.0.0.1:5672: connect: connection refused" rfl

end Rabbit
